import Mathlib

/-!
# DevOps Guardian — Incident Orchestration Engine, shallow embedding

This file embeds the incident-orchestration core of the DevOps Guardian
repository in Lean 4 and proves/refutes the specification claims about it.

The embedded code (current revision of the repository):
* `apps/api/src/routes/logIngestion.ts` — fingerprint deduplication and the
  log-ingestion entry point (`router.post /:projectId`);
* the `AgentOrchestrator` class (workflow state machine, self-healing retry
  loop, approval gate, `handleApproval` / `handleRejection`,
  `createPRAndNotify`);
* the `POST /api/slack/interactions` route (duplicate approval triggers).

The repository carries two revisions of the orchestrator.  This embedding
follows the current one (the revision with `.js`-suffixed imports, matching
the current `logIngestion.ts`): it has the bounded self-healing loop, the
patch-failure persistence, and the "DO NOT Auto-Fix" manual-approval wait;
the older draft (`orchestrator.ts` with extension-less imports, paired with
the older `logIngestion` draft) lacks all three.

Two deliberate simplifications, neither observable by any claim: attempt
counters interpolated into `statusMessage` strings (e.g. "(Attempt 2)") are
dropped, and the secret-refresh block at the top of `runWorkflow` (which only
rewrites `metadata.token` from the secret store) is omitted.

External collaborators (reasoning provider, sandboxed verifier, code-hosting
client, chat client) are modelled as oracles supplied in an `Env` record:
each orchestrator run is a pure function of the incident data and of the
results the collaborators would return.  Every externally visible effect
(executor invocation, socket broadcast, database write) is recorded in a
`Trace` so the theorems can speak about what was invoked, broadcast and
persisted.
-/

namespace DevOpsGuardian

/-- JavaScript falsiness for optional strings: `undefined`/`null`/`""` are
falsy.  `metadata?.owner`, `metadata?.errorSource || "production"` and similar
source expressions test exactly this. -/
def strFalsy : Option String → Bool
  | none => true
  | some s => s = ""

/-! ## Data model (`Incident` records as stored by Prisma) -/

/-- The metadata bag of an incident, restricted to the keys the orchestration
core reads or writes (`logIngestion.ts` `extractMetadata`, orchestrator
`runWorkflow`/`requestApproval`/`handleRejection`/`createPRAndNotify`). -/
structure Metadata where
  projectId : Option String := none
  owner : Option String := none
  repo : Option String := none
  token : Option String := none
  errorSource : Option String := none
  rcaData : Option String := none
  patchData : Option String := none
  awaitingApproval : Bool := false
  rejectedBy : Option String := none
  rejectionReason : Option String := none
  prUrl : Option String := none
  resolvedAt : Option Nat := none
  deriving Repr, DecidableEq

/-- One stored incident row (`db.incident`).  Timestamps are naturals. -/
structure Incident where
  id : String
  title : String
  status : String
  fingerprint : Option String
  occurrenceCount : Nat
  lastSeen : Nat
  metadata : Metadata
  deriving Repr, DecidableEq

/-! ## Fingerprint normalization (`logIngestion.ts`, lines 196–212)

The source lower-cases and trims the error message, then applies three global
regex replacements with the empty string:
  1. `/\d{4}-\d{2}-\d{2}t\d{2}:\d{2}:\d{2}(?:\.\d+)?z?/g`  (ISO timestamps)
  2. `/\d{2}:\d{2}:\d{2}/g`                                 (HH:MM:SS)
  3. `/[0-9a-f]{8}-[0-9a-f]{4}-[0-9a-f]{4}-[0-9a-f]{4}-[0-9a-f]{12}/g` (UUIDs)
and finally truncates to 300 characters.  The matchers below implement those
three regexes directly over character lists; `stripMatches` is JavaScript's
global replace-with-empty-string (leftmost match, continue after the matched
span, keep the character and advance on a zero-length match). -/

def isHexLower (c : Char) : Bool := c.isDigit || ('a' ≤ c && c ≤ 'f')

/-- Consume exactly `n` characters satisfying `p`. -/
def matchCount (p : Char → Bool) : Nat → List Char → Option (List Char)
  | 0, l => some l
  | n + 1, c :: l => if p c then matchCount p n l else none
  | _ + 1, [] => none

/-- Consume one literal character. -/
def matchLit (c : Char) : List Char → Option (List Char)
  | d :: l => if d = c then some l else none
  | [] => none

/-- Greedily consume one or more characters satisfying `p` (regex `\d+`). -/
def matchMany1 (p : Char → Bool) : List Char → Option (List Char)
  | c :: l =>
    if p c then
      some (match matchMany1 p l with
            | some l2 => l2
            | none => l)
    else none
  | [] => none

/-- `\d{2}:\d{2}:\d{2}` -/
def hmsMatch (l : List Char) : Option (List Char) :=
  (matchCount Char.isDigit 2 l).bind fun l =>
  (matchLit ':' l).bind fun l =>
  (matchCount Char.isDigit 2 l).bind fun l =>
  (matchLit ':' l).bind fun l =>
  matchCount Char.isDigit 2 l

/-- `\d{4}-\d{2}-\d{2}t\d{2}:\d{2}:\d{2}(?:\.\d+)?z?` (input already
lower-cased). -/
def isoMatch (l : List Char) : Option (List Char) :=
  ((matchCount Char.isDigit 4 l).bind fun l =>
   (matchLit '-' l).bind fun l =>
   (matchCount Char.isDigit 2 l).bind fun l =>
   (matchLit '-' l).bind fun l =>
   (matchCount Char.isDigit 2 l).bind fun l =>
   (matchLit 't' l).bind fun l =>
   hmsMatch l).map fun l =>
    -- optional fractional seconds, then optional trailing z
    let l := match (matchLit '.' l).bind (matchMany1 Char.isDigit) with
             | some l2 => l2
             | none => l
    match matchLit 'z' l with
    | some l2 => l2
    | none => l

/-- `[0-9a-f]{8}-[0-9a-f]{4}-[0-9a-f]{4}-[0-9a-f]{4}-[0-9a-f]{12}` -/
def uuidMatch (l : List Char) : Option (List Char) :=
  (matchCount isHexLower 8 l).bind fun l =>
  (matchLit '-' l).bind fun l =>
  (matchCount isHexLower 4 l).bind fun l =>
  (matchLit '-' l).bind fun l =>
  (matchCount isHexLower 4 l).bind fun l =>
  (matchLit '-' l).bind fun l =>
  (matchCount isHexLower 4 l).bind fun l =>
  (matchLit '-' l).bind fun l =>
  matchCount isHexLower 12 l

/-- Number of characters a matcher consumes at the head of `l`. -/
def consumed (m : List Char → Option (List Char)) (l : List Char) : Option Nat :=
  (m l).map fun rest => l.length - rest.length

/-- JavaScript `String.prototype.replace` with a global regex and the empty
replacement string: scan left to right, delete every leftmost match,
continue after the deleted span.  `fuel` bounds the number of scan steps;
every step consumes at least one character, so `l.length` steps always
suffice and the fuel-exhaustion branch (which returns the input unchanged) is
never reached from `stripMatches`. -/
def stripMatchesAux (m : List Char → Option (List Char)) :
    Nat → List Char → List Char
  | 0, l => l
  | _ + 1, [] => []
  | fuel + 1, c :: rest =>
    match consumed m (c :: rest) with
    | some n =>
      if n = 0 then c :: stripMatchesAux m fuel rest
      else stripMatchesAux m fuel (List.drop n (c :: rest))
    | none => c :: stripMatchesAux m fuel rest

def stripMatches (m : List Char → Option (List Char)) (l : List Char) :
    List Char :=
  stripMatchesAux m l.length l

/-- ASCII lower-casing (`toLowerCase` over the character range the messages
use). -/
def charToLower (c : Char) : Char :=
  if 'A' ≤ c ∧ c ≤ 'Z' then Char.ofNat (c.toNat + 32) else c

def isWhitespaceChar (c : Char) : Bool :=
  c = ' ' || c = '\t' || c = '\n' || c = '\r'

/-- `String.prototype.trim`: drop leading and trailing whitespace. -/
def trimChars (l : List Char) : List Char :=
  ((l.dropWhile isWhitespaceChar).reverse.dropWhile isWhitespaceChar).reverse

/-- The normalization pipeline of `logIngestion.ts` lines 197–207. -/
def normalizeMessage (msg : String) : String :=
  let l := trimChars (msg.data.map charToLower)
  let l := stripMatches isoMatch l
  let l := stripMatches hmsMatch l
  let l := stripMatches uuidMatch l
  String.mk (l.take 300)

/-- `md5(normalizedMessage + projectId)` (lines 209–212).  The hash itself is
modelled as the identity on its input: the code only ever compares
fingerprints for equality, and equal inputs give equal md5 digests. -/
def fingerprintOf (msg projectId : String) : String :=
  normalizeMessage msg ++ projectId

/-! ## Deduplication at the log-ingestion entry point (lines 214–263) -/

/-- `db.incident.findFirst({ where: { fingerprint, status: { not:
"RESOLVED" } } })`.  `findFirst` returns one matching row in unspecified
database order; the model takes the first in list order. -/
def dedupLookup (store : List Incident) (fp : String) : Option Incident :=
  store.find? fun i => i.fingerprint = some fp && i.status ≠ "RESOLVED"

/-- The `occurrenceCount: { increment: 1 }, lastSeen: new Date()` update of
the duplicate row. -/
def bumpOccurrence (store : List Incident) (dupId : String) (now : Nat) :
    List Incident :=
  store.map fun i =>
    if i.id = dupId then
      { i with occurrenceCount := i.occurrenceCount + 1, lastSeen := now }
    else i

/-- The freshly built incident that `orchestrator.handleIncident` persists
with `db.incident.create` when no open duplicate exists (lines 243–263 of the
route plus the create in `handleIncident`). -/
def newIncidentRow (freshId : String) (errorMessage : String) (fp : String)
    (now : Nat) (meta : Metadata) : Incident :=
  { id := freshId
    title := "Production Error: " ++
      (if errorMessage.take 100 = "" then "Log error detected"
       else errorMessage.take 100)
    status := "OPEN"
    fingerprint := some fp
    occurrenceCount := 1
    lastSeen := now
    metadata := meta }

/-- Response data of `POST /api/v1/logs/:projectId` relevant to dedup. -/
structure IngestResponse where
  statusCode : Nat
  duplicate : Bool
  incidentId : String
  deriving Repr, DecidableEq

/-- Lines 196–263 of `logIngestion.ts`: compute the fingerprint of the fault
message, look for an open incident with the same fingerprint, and either bump
the duplicate or create a new incident and start the workflow.  Returns the
new store, the HTTP response, and whether a workflow was started
(`orchestrator.handleIncident` called). -/
def processFaultMessage (store : List Incident) (projectId errorMessage : String)
    (freshId : String) (now : Nat) (meta : Metadata) :
    List Incident × IngestResponse × Bool :=
  let fp := fingerprintOf errorMessage projectId
  match dedupLookup store fp with
  | some dup =>
    (bumpOccurrence store dup.id now, ⟨200, true, dup.id⟩, false)
  | none =>
    (store ++ [newIncidentRow freshId errorMessage fp now meta],
     ⟨202, false, freshId⟩, true)

/-- Number of open (non-RESOLVED) incidents carrying fingerprint `fp`. -/
def openCountFor (store : List Incident) (fp : String) : Nat :=
  store.countP fun i => i.fingerprint = some fp && i.status ≠ "RESOLVED"

/-- The dedup write phase (increment the duplicate, or create the incident
via `orchestrator.handleIncident`).  In the source this is a separate awaited
database operation from the `findFirst` read — there is no transaction and no
unique constraint tying the two together. -/
def dedupApply (store : List Incident) (decision : Option Incident)
    (projectId errorMessage freshId : String) (now : Nat) (meta : Metadata) :
    List Incident :=
  match decision with
  | some dup => bumpOccurrence store dup.id now
  | none =>
    store ++ [newIncidentRow freshId errorMessage
      (fingerprintOf errorMessage projectId) now meta]

/-! ## Orchestrator (`AgentOrchestrator`)

The orchestrator's collaborators are oracles in `Env`; every run of a
workflow phase is a pure function producing a `Trace` of the executor calls
it made, the socket broadcasts it emitted, and the incident-store writes it
performed, together with the final in-memory `status` of the incident
object. -/

/-- Result of one `verificationAgent.execute` call
(`{ success, data?.logs, error }`). -/
structure VerifyResult where
  success : Bool
  logs : Option (List String)
  error : Option String
  deriving Repr, DecidableEq

/-- `verifyResult.data?.logs || [verifyResult.error || "Unknown error"]`
(an empty `logs` array is truthy in JavaScript and is kept as-is). -/
def failureLogs (v : VerifyResult) : List String :=
  match v.logs with
  | some l => l
  | none => [v.error.getD "Unknown error"]

/-- One step-executor or chat-collaborator invocation, with the result the
collaborator returned. -/
inductive ExecCall
  | rca (result : Option String)
  | patch (feedback : Option (List String)) (result : Option String)
  | verify (patch : Option String) (result : VerifyResult)
  | pr (result : Option String)
  | slackApprovalRequest
  | slackNotify
  deriving Repr, DecidableEq

/-- One `emitIncidentUpdate` broadcast: the status carried by the emitted
incident object and its optional `statusMessage`. -/
structure Broadcast where
  status : String
  message : Option String
  deriving Repr, DecidableEq

/-- One `db.incident.update` performed by the orchestrator. -/
inductive StoreWrite
  | setStatus (iid : String) (status : String)
  | setMeta (iid : String) (m : Metadata)
  | setStatusAndMeta (iid : String) (status : String) (m : Metadata)
  deriving Repr, DecidableEq

/-- The externally visible effects of one orchestrator run. -/
structure Trace where
  calls : List ExecCall := []
  broadcasts : List Broadcast := []
  writes : List StoreWrite := []
  deriving Repr, DecidableEq

def Trace.app (t u : Trace) : Trace :=
  ⟨t.calls ++ u.calls, t.broadcasts ++ u.broadcasts, t.writes ++ u.writes⟩

instance : Append Trace := ⟨Trace.app⟩

/-- Oracles for the external collaborators: what each would return if
invoked.  `retryPatchResult n` is the Patch executor's answer on self-healing
attempt `n`; `verifyAuto n` the sandbox verifier's answer on loop attempt
`n` (0-based); `verifyProd` its answer for the post-approval verification. -/
structure Env where
  rcaResult : Option String
  patchResult : Option String
  retryPatchResult : Nat → Option String
  verifyAuto : Nat → VerifyResult
  verifyProd : VerifyResult
  prResult : Option String
  slackConfigured : Bool
  now : Nat

/-- A phase's effect trace plus the final in-memory incident status. -/
structure PhaseOut where
  trace : Trace
  memStatus : String
  deriving Repr, DecidableEq

/-- The PR-creation tail of `createPRAndNotify` (from the
`PR_CREATION_IN_PROGRESS` assignment on): check `metadata.owner`/`repo`
(JavaScript falsiness), invoke the PR executor, and on success persist
`RESOLVED` with the PR url and notify chat.  `pre` holds the effects of the
production-path verification that may precede this step. -/
def prStep (env : Env) (incidentId : String) (meta : Metadata)
    (patchData : Option String) (preCalls : List ExecCall)
    (preBroadcasts : List Broadcast) : PhaseOut :=
  let b2 := preBroadcasts ++
    [⟨"PR_CREATION_IN_PROGRESS", some "Creating Pull Request..."⟩]
  if strFalsy meta.owner || strFalsy meta.repo then
    -- "[Orchestrator] Skipped PR: Missing owner/repo." — plain return
    { trace := { calls := preCalls, broadcasts := b2 },
      memStatus := "PR_CREATION_IN_PROGRESS" }
  else
    match patchData with
    | none =>
      -- reading `patchData.fileUpdates` throws; the exception propagates to
      -- the caller's catch and nothing further happens
      { trace := { calls := preCalls, broadcasts := b2 },
        memStatus := "PR_CREATION_IN_PROGRESS" }
    | some _ =>
      match env.prResult with
      | none =>
        { trace := { calls := preCalls ++ [.pr none],
                     broadcasts := b2 ++ [⟨"FAILED", some "PR Creation Failed"⟩] },
          memStatus := "PR_CREATION_IN_PROGRESS" }
      | some url =>
        let newMeta := { meta with prUrl := some url, resolvedAt := some env.now }
        { trace := { calls := preCalls ++ [.pr (some url)] ++
                       (if env.slackConfigured then [.slackNotify] else []),
                     broadcasts := b2 ++ [⟨"RESOLVED", some "PR Created!"⟩],
                     writes := [.setStatusAndMeta incidentId "RESOLVED" newMeta] },
          memStatus := "RESOLVED" }

/-- `AgentOrchestrator.createPRAndNotify`: for the production (post-approval)
path, verify once more just before the merge; then create the pull request
and, on success, persist `RESOLVED` and notify chat. -/
def createPRAndNotify (env : Env) (incidentId : String) (meta : Metadata)
    (patchData : Option String) (source : String) : PhaseOut :=
  if source = "production" then
    let preC : List ExecCall := [.verify patchData env.verifyProd]
    let preB : List Broadcast :=
      [⟨"VERIFY_IN_PROGRESS", some "Verifying Fix in Sandbox..."⟩]
    if env.verifyProd.success then
      prStep env incidentId meta patchData preC preB
    else
      { trace := { calls := preC,
                   broadcasts := preB ++ [⟨"FAILED", some "Verification Failed"⟩] },
        memStatus := "VERIFY_IN_PROGRESS" }
  else
    prStep env incidentId meta patchData [] []

/-- `AgentOrchestrator.requestApproval`: enter `AWAITING_APPROVAL`, ping chat
only when a chat collaborator is configured, and persist the accumulated
rca/patch context with `awaitingApproval: true`.  When chat is not configured
the incident deliberately stays awaiting manual approval ("DO NOT Auto-Fix"). -/
def requestApproval (env : Env) (incidentId : String) (meta : Metadata)
    (rcaData : Option String) (patchData : Option String) : PhaseOut :=
  let newMeta := { meta with
    rcaData := rcaData
    patchData := patchData
    awaitingApproval := true }
  { trace := { calls := if env.slackConfigured then [.slackApprovalRequest] else [],
               broadcasts := [⟨"AWAITING_APPROVAL", some "Waiting for Approval (Slack)..."⟩],
               writes := [.setMeta incidentId newMeta] },
    memStatus := "AWAITING_APPROVAL" }

/-- Result of the self-healing `while` loop. -/
structure LoopOut where
  trace : Trace
  memStatus : String
  verified : Bool
  patch : String
  deriving Repr, DecidableEq

def MAX_RETRIES : Nat := 3

/-- The self-healing `while (!verified && attempt < MAX_RETRIES)` loop of
`runAutoFixWorkflow`.  `fuel` counts the remaining loop iterations
(`MAX_RETRIES - attempt`); `cur` is `currentPatchData`; `vlogs` is
`verificationLogs`.  On every iteration after the first, the Patch executor
is re-invoked with the previous failure logs; if that re-patch fails the loop
`break`s.  Each iteration then verifies the current patch; on failure the
failure logs are kept and `attempt` is incremented. -/
def selfHealAux (env : Env) : Nat → Nat → String → List String → String → LoopOut
  | 0, _, cur, _, ms => ⟨{}, ms, false, cur⟩
  | fuel + 1, attempt, cur, vlogs, ms =>
    if attempt > 0 then
      -- 3.1 re-patch with feedback
      let retryB : List Broadcast := [⟨ms, some "Verification Failed. Retrying Fix..."⟩]
      match env.retryPatchResult attempt with
      | none =>
        -- "Re-patch failed. Aborting retry." — break
        ⟨{ calls := [.patch (some vlogs) none], broadcasts := retryB }, ms, false, cur⟩
      | some newPatch =>
        -- 3.2 verify
        let r := env.verifyAuto attempt
        let vB : List Broadcast :=
          [⟨"VERIFY_IN_PROGRESS", some "Verifying Fix in Sandbox..."⟩]
        if r.success then
          ⟨{ calls := [.patch (some vlogs) (some newPatch), .verify (some newPatch) r],
             broadcasts := retryB ++ vB }, "VERIFY_IN_PROGRESS", true, newPatch⟩
        else
          let rest := selfHealAux env fuel (attempt + 1) newPatch (failureLogs r)
            "VERIFY_IN_PROGRESS"
          ⟨{ calls := .patch (some vlogs) (some newPatch) ::
               .verify (some newPatch) r :: rest.trace.calls,
             broadcasts := retryB ++ vB ++ rest.trace.broadcasts,
             writes := rest.trace.writes },
           rest.memStatus, rest.verified, rest.patch⟩
    else
      -- first iteration: verify the original patch directly
      let r := env.verifyAuto attempt
      let vB : List Broadcast :=
        [⟨"VERIFY_IN_PROGRESS", some "Verifying Fix in Sandbox..."⟩]
      if r.success then
        ⟨{ calls := [.verify (some cur) r], broadcasts := vB },
         "VERIFY_IN_PROGRESS", true, cur⟩
      else
        let rest := selfHealAux env fuel (attempt + 1) cur (failureLogs r)
          "VERIFY_IN_PROGRESS"
        ⟨{ calls := .verify (some cur) r :: rest.trace.calls,
           broadcasts := vB ++ rest.trace.broadcasts,
           writes := rest.trace.writes },
         rest.memStatus, rest.verified, rest.patch⟩

/-- `AgentOrchestrator.runAutoFixWorkflow`: run the bounded self-healing
Verify→Patch loop; on success continue to PR creation, on exhaustion emit a
`FAILED` update and stop. -/
def runAutoFixWorkflow (env : Env) (incidentId : String) (meta : Metadata)
    (patchData : String) (ms : String) : PhaseOut :=
  let lo := selfHealAux env MAX_RETRIES 0 patchData [] ms
  if lo.verified then
    let out := createPRAndNotify env incidentId meta (some lo.patch) "ci-cd"
    { trace := lo.trace ++ out.trace, memStatus := out.memStatus }
  else
    { trace := { lo.trace with broadcasts := lo.trace.broadcasts ++
          [⟨"FAILED", some "Verification Failed (Max Retries Exceeded)"⟩] },
      memStatus := lo.memStatus }

/-- Routing decision after a successful Patch step. -/
inductive PathChoice
  | autoFix
  | approval
  | fallThrough
  deriving Repr, DecidableEq

/-- `const errorSource = metadata?.errorSource || "production"` — only a JS
falsy value (missing or empty string) is replaced by `"production"`. -/
def effectiveErrorSource : Option String → String
  | none => "production"
  | some s => if s = "" then "production" else s

/-- The two `if` statements at the end of `runWorkflow`: `"ci-cd"` enters the
auto-fix path, `"production"` the approval path, and anything else falls
through — `runWorkflow` simply returns. -/
def routeErrorSource (es : Option String) : PathChoice :=
  let e := effectiveErrorSource es
  if e = "ci-cd" then .autoFix
  else if e = "production" then .approval
  else .fallThrough

/-- `AgentOrchestrator.runWorkflow`: RCA (best effort) → Patch (terminal on
failure: persist `FAILED` and stop) → branch on `metadata.errorSource`. -/
def runWorkflow (env : Env) (incidentId : String) (meta0 : Metadata) : PhaseOut :=
  let b0 : List Broadcast := [⟨"RCA_IN_PROGRESS", some "Analyzing Root Cause..."⟩]
  let rcaCall := ExecCall.rca env.rcaResult
  let meta1 := match env.rcaResult with
               | some d => { meta0 with rcaData := some d }
               | none => meta0
  let b1 := match env.rcaResult with
            | some _ => b0 ++ [⟨"RCA_IN_PROGRESS", some "RCA Complete"⟩]
            | none => b0
  let b2 := b1 ++ [⟨"PATCH_IN_PROGRESS", some "Generating Code Fix..."⟩]
  let patchCall := ExecCall.patch none env.patchResult
  match env.patchResult with
  | none =>
    { trace := { calls := [rcaCall, patchCall],
                 broadcasts := b2 ++ [⟨"FAILED", some "Patch Generation Failed"⟩],
                 writes := [.setStatus incidentId "FAILED"] },
      memStatus := "FAILED" }
  | some pd =>
    let meta2 := { meta1 with patchData := some pd }
    let b3 := b2 ++ [⟨"PATCH_IN_PROGRESS", some "Patch Generated"⟩]
    let pre : Trace := { calls := [rcaCall, patchCall], broadcasts := b3 }
    match routeErrorSource meta2.errorSource with
    | .autoFix =>
      let out := runAutoFixWorkflow env incidentId meta2 pd "PATCH_IN_PROGRESS"
      { trace := pre ++ out.trace, memStatus := out.memStatus }
    | .approval =>
      let out := requestApproval env incidentId meta2 env.rcaResult (some pd)
      { trace := pre ++ out.trace, memStatus := out.memStatus }
    | .fallThrough =>
      { trace := pre, memStatus := "PATCH_IN_PROGRESS" }

/-! ## Store application and the approve / reject resume paths -/

def applyWrite (store : List Incident) : StoreWrite → List Incident
  | .setStatus iid st =>
    store.map fun i => if i.id = iid then { i with status := st } else i
  | .setMeta iid m =>
    store.map fun i => if i.id = iid then { i with metadata := m } else i
  | .setStatusAndMeta iid st m =>
    store.map fun i => if i.id = iid then { i with status := st, metadata := m } else i

def applyWrites (store : List Incident) (ws : List StoreWrite) : List Incident :=
  ws.foldl applyWrite store

def findIncident (store : List Incident) (iid : String) : Option Incident :=
  store.find? fun i => i.id = iid

/-- `AgentOrchestrator.handleApproval`: load the incident, broadcast, and
unconditionally resume `createPRAndNotify` with the stored rca/patch context.
The current status of the incident is never checked. -/
def handleApproval (env : Env) (store : List Incident) (iid : String) :
    List Incident × PhaseOut :=
  match findIncident store iid with
  | none => (store, { trace := {}, memStatus := "" })
  | some inc =>
    let b0 : Broadcast := ⟨inc.status, some "Approval Received. Resuming..."⟩
    let out := createPRAndNotify env iid inc.metadata inc.metadata.patchData
      "production"
    (applyWrites store out.trace.writes,
     { out with trace := { out.trace with
         broadcasts := b0 :: out.trace.broadcasts } })

/-- `AgentOrchestrator.handleRejection`: load the incident and
unconditionally set its status to `RESOLVED` with a
`rejectedBy`/`rejectionReason` annotation.  The current status of the
incident is never checked. -/
def handleRejection (store : List Incident) (iid : String) :
    List Incident × PhaseOut :=
  match findIncident store iid with
  | none => (store, { trace := {}, memStatus := "" })
  | some inc =>
    let newMeta := { inc.metadata with
      rejectedBy := some "user"
      rejectionReason := some "Slack Interaction" }
    let w : StoreWrite := .setStatusAndMeta iid "RESOLVED" newMeta
    (applyWrite store w,
     { trace := { broadcasts := [⟨"RESOLVED", some "Fix Rejected by User (Won't Fix)"⟩],
                  writes := [w] },
       memStatus := "RESOLVED" })

/-! ## Trace predicates -/

def isVerifyCall : ExecCall → Bool
  | .verify _ _ => true
  | _ => false

def isPatchCall : ExecCall → Bool
  | .patch _ _ => true
  | _ => false

def isPRCall : ExecCall → Bool
  | .pr _ => true
  | _ => false

/-- The patch argument of the first Verify invocation in a call list. -/
def firstVerifyPatch : List ExecCall → Option (Option String)
  | [] => none
  | .verify p _ :: _ => some p
  | _ :: rest => firstVerifyPatch rest

/-- Every Patch invocation that carries feedback (`previousFailures`)
immediately follows a failed Verify invocation, and the feedback it receives
is exactly that verification's failure logs. -/
def feedbackChained : List ExecCall → Prop
  | ExecCall.verify _ r :: ExecCall.patch (some fb) _ :: rest =>
      r.success = false ∧ fb = failureLogs r ∧ feedbackChained rest
  | ExecCall.patch (some _) _ :: _ => False
  | _ :: rest => feedbackChained rest
  | [] => True

/-- A call list that may legally follow a (successful or failed) prefix:
it chains on its own and also chains when a Verify call is prepended. -/
def chainedCont (k : List ExecCall) : Prop :=
  feedbackChained k ∧ ∀ p r, feedbackChained (ExecCall.verify p r :: k)

/-! ## Lemmas about the self-healing loop -/

/-- The loop performs no store writes, never invokes the PR executor or the
chat client, and invokes Verify at most `fuel` times. -/
theorem selfHealAux_basic (env : Env) (fuel attempt : Nat) (cur : String)
    (vlogs : List String) (ms : String) :
    (selfHealAux env fuel attempt cur vlogs ms).trace.writes = [] ∧
    (∀ c ∈ (selfHealAux env fuel attempt cur vlogs ms).trace.calls,
      isPRCall c = false ∧ c ≠ .slackNotify ∧ c ≠ .slackApprovalRequest) ∧
    (selfHealAux env fuel attempt cur vlogs ms).trace.calls.countP isVerifyCall
      ≤ fuel := by
  induction fuel generalizing attempt cur vlogs ms with
  | zero => simp [selfHealAux]
  | succ n ih =>
    rw [selfHealAux]
    simp only [Nat.succ_ne_zero, dite_false]
    by_cases ha : attempt > 0
    · simp only [ha, if_true]
      rcases env.retryPatchResult attempt with _ | np
      · simp [isPRCall, isVerifyCall]
      · by_cases hs : (env.verifyAuto attempt).success
        · simp [hs, isPRCall, isVerifyCall]
        · obtain ⟨h1, h2, h3⟩ := ih (attempt + 1) np
            (failureLogs (env.verifyAuto attempt)) "VERIFY_IN_PROGRESS"
          simp only [hs, if_false, Bool.false_eq_true, Nat.add_sub_cancel]
          refine ⟨h1, ?_, ?_⟩
          · intro c hc
            simp only [List.mem_cons] at hc
            rcases hc with rfl | rfl | hc
            · simp [isPRCall]
            · simp [isPRCall]
            · exact h2 c hc
          · simp [List.countP_cons, isVerifyCall, Nat.add_sub_cancel]
            omega
    · simp only [ha, if_false]
      by_cases hs : (env.verifyAuto attempt).success
      · simp [hs, isPRCall, isVerifyCall]
      · obtain ⟨h1, h2, h3⟩ := ih (attempt + 1) cur
          (failureLogs (env.verifyAuto attempt)) "VERIFY_IN_PROGRESS"
        simp only [hs, if_false, Bool.false_eq_true, Nat.add_sub_cancel]
        refine ⟨h1, ?_, ?_⟩
        · intro c hc
          simp only [List.mem_cons] at hc
          rcases hc with rfl | hc
          · simp [isPRCall]
          · exact h2 c hc
        · simp [List.countP_cons, isVerifyCall, Nat.add_sub_cancel]
          omega

/-- Feedback chaining for the loop trace: started at `attempt = 0` the loop
trace chains on its own; started at a retry attempt with `vlogs` being the
failure logs of a failed verification `r`, the trace chains when that
verification is prepended. -/
theorem selfHealAux_chained (env : Env) (fuel : Nat) :
    ∀ (attempt : Nat) (cur : String) (vlogs : List String) (ms : String)
      (k : List ExecCall), chainedCont k →
    (attempt = 0 →
      feedbackChained ((selfHealAux env fuel attempt cur vlogs ms).trace.calls ++ k)) ∧
    (∀ (p : Option String) (r : VerifyResult), r.success = false →
      vlogs = failureLogs r →
      feedbackChained (ExecCall.verify p r ::
        ((selfHealAux env fuel attempt cur vlogs ms).trace.calls ++ k))) := by
  induction fuel with
  | zero =>
    intro attempt cur vlogs ms k hk
    constructor
    · intro _
      simpa [selfHealAux] using hk.1
    · intro p r _ _
      simpa [selfHealAux] using hk.2 p r
  | succ n ih =>
    intro attempt cur vlogs ms k hk
    rw [selfHealAux]
    simp only [Nat.succ_ne_zero, dite_false, Nat.add_sub_cancel]
    constructor
    · rintro rfl
      simp only [gt_iff_lt, Nat.lt_irrefl, if_false]
      by_cases hs : (env.verifyAuto 0).success
      · simpa [hs, feedbackChained] using hk.2 (some cur) (env.verifyAuto 0)
      · replace hs : (env.verifyAuto 0).success = false := by
          simpa using hs
        simp only [hs, Bool.false_eq_true, if_false]
        have h2 := (ih 1 cur (failureLogs (env.verifyAuto 0))
          "VERIFY_IN_PROGRESS" k hk).2 (some cur) (env.verifyAuto 0) hs rfl
        simpa using h2
    · intro p r hr hlogs
      by_cases ha : attempt > 0
      · simp only [ha, if_true]
        rcases env.retryPatchResult attempt with _ | np
        · simp [feedbackChained, hr, hlogs, hk.1]
        · by_cases hs : (env.verifyAuto attempt).success
          · simp only [hs, if_true]
            refine ?_
            have := hk.2 (some np) (env.verifyAuto attempt)
            simp [feedbackChained, hr, hlogs, this]
          · replace hs : (env.verifyAuto attempt).success = false := by
              simpa using hs
            simp only [hs, Bool.false_eq_true, if_false]
            have h2 := (ih (attempt + 1) np (failureLogs (env.verifyAuto attempt))
              "VERIFY_IN_PROGRESS" k hk).2 (some np) (env.verifyAuto attempt) hs rfl
            simpa [feedbackChained, hr, hlogs] using h2
      · simp only [ha, if_false]
        by_cases hs : (env.verifyAuto attempt).success
        · have := hk.2 (some cur) (env.verifyAuto attempt)
          simp [hs, feedbackChained, this]
        · replace hs : (env.verifyAuto attempt).success = false := by
            simpa using hs
          simp only [hs, Bool.false_eq_true, if_false]
          have h2 := (ih (attempt + 1) cur (failureLogs (env.verifyAuto attempt))
            "VERIFY_IN_PROGRESS" k hk).2 (some cur) (env.verifyAuto attempt) hs rfl
          simpa [feedbackChained] using h2

/-- Entered at `attempt = 0` with positive fuel, the loop's first executor
call is a verification of the original patch. -/
theorem selfHealAux_head (env : Env) (fuel : Nat) (cur : String)
    (vlogs : List String) (ms : String) (h : fuel ≠ 0) :
    ∃ rest, (selfHealAux env fuel 0 cur vlogs ms).trace.calls
      = ExecCall.verify (some cur) (env.verifyAuto 0) :: rest := by
  obtain ⟨k, rfl⟩ : ∃ k, fuel = k + 1 := ⟨fuel - 1, by omega⟩
  rw [selfHealAux]
  simp only [gt_iff_lt, Nat.lt_irrefl, if_false]
  by_cases hs : (env.verifyAuto 0).success
  · exact ⟨[], by simp [hs]⟩
  · replace hs : (env.verifyAuto 0).success = false := by simpa using hs
    simp only [hs, Bool.false_eq_true, if_false]
    exact ⟨_, rfl⟩

@[simp] theorem Trace.app_calls (t u : Trace) :
    (t ++ u).calls = t.calls ++ u.calls := rfl

@[simp] theorem Trace.app_broadcasts (t u : Trace) :
    (t ++ u).broadcasts = t.broadcasts ++ u.broadcasts := rfl

@[simp] theorem Trace.app_writes (t u : Trace) :
    (t ++ u).writes = t.writes ++ u.writes := rfl

/-- The `ci-cd` continuation after a verified loop (`createPRAndNotify` with
`source = "ci-cd"`) performs no verification and chains trivially. -/
theorem cicd_tail_facts (env : Env) (iid : String) (meta : Metadata)
    (pdOpt : Option String) :
    ((createPRAndNotify env iid meta pdOpt "ci-cd").trace.calls.countP
      isVerifyCall = 0) ∧
    chainedCont (createPRAndNotify env iid meta pdOpt "ci-cd").trace.calls := by
  rcases pdOpt with _ | pd <;>
    rcases hpr : env.prResult with _ | url <;>
      by_cases ho : (strFalsy meta.owner || strFalsy meta.repo) = true <;>
        by_cases hs : env.slackConfigured <;>
          simp [createPRAndNotify, prStep, hpr, ho, hs, chainedCont,
            feedbackChained, isVerifyCall]

/-- **C1.** In the auto-fix path, the self-healing loop invokes the Verify
executor at most 3 times per incident; the first verification checks the
original patch, and every Patch re-invocation after a failed verification
receives that verification's failure logs as feedback before the next
verification. -/
theorem C1_auto_fix_self_healing (env : Env) (iid : String) (meta : Metadata)
    (pd : String) (ms : String) :
    ((runAutoFixWorkflow env iid meta pd ms).trace.calls.countP isVerifyCall ≤ 3) ∧
    firstVerifyPatch (runAutoFixWorkflow env iid meta pd ms).trace.calls
      = some (some pd) ∧
    feedbackChained (runAutoFixWorkflow env iid meta pd ms).trace.calls := by
  obtain ⟨hw, hcalls, hcount⟩ := selfHealAux_basic env 3 0 pd [] ms
  obtain ⟨rest, hrest⟩ := selfHealAux_head env 3 pd [] ms (by decide)
  simp only [runAutoFixWorkflow, MAX_RETRIES]
  by_cases hv : (selfHealAux env 3 0 pd [] ms).verified
  · obtain ⟨htc, htk⟩ := cicd_tail_facts env iid meta
      (some (selfHealAux env 3 0 pd [] ms).patch)
    have hch := (selfHealAux_chained env 3 0 pd [] ms
      (createPRAndNotify env iid meta
        (some (selfHealAux env 3 0 pd [] ms).patch) "ci-cd").trace.calls htk).1 rfl
    simp only [hv, if_true]
    refine ⟨?_, ?_, ?_⟩
    · simp only [Trace.app_calls, List.countP_append]
      omega
    · simp only [Trace.app_calls, hrest]
      simp [firstVerifyPatch]
    · simpa using hch
  · have hcont : chainedCont [] := by
      constructor
      · simp [feedbackChained]
      · intro p r
        simp [feedbackChained]
    have hch := (selfHealAux_chained env 3 0 pd [] ms [] hcont).1 rfl
    simp only [hv, if_false]
    refine ⟨?_, ?_, ?_⟩
    · simpa using hcount
    · simp only [hrest]
      simp [firstVerifyPatch]
    · simpa using hch

/-- The `ci-cd` continuation never requests a human approval. -/
theorem cicd_tail_no_approval (env : Env) (iid : String) (meta : Metadata)
    (pdOpt : Option String) :
    ∀ c ∈ (createPRAndNotify env iid meta pdOpt "ci-cd").trace.calls,
      c ≠ ExecCall.slackApprovalRequest := by
  rcases pdOpt with _ | pd <;>
    rcases hpr : env.prResult with _ | url <;>
      by_cases ho : (strFalsy meta.owner || strFalsy meta.repo) = true <;>
        by_cases hs : env.slackConfigured <;>
          simp [createPRAndNotify, prStep, hpr, ho, hs]

/-- Collaborator environment in which every step succeeds at the first try
and no chat client is configured. -/
def envOK : Env :=
  { rcaResult := some "rca-analysis"
    patchResult := some "patch-0"
    retryPatchResult := fun _ => some "patch-retry"
    verifyAuto := fun _ => ⟨true, some [], none⟩
    verifyProd := ⟨true, some [], none⟩
    prResult := some "pr-url-1"
    slackConfigured := false
    now := 100 }

/-- Metadata of an incident classified with the unrecognized error source
`"staging"`. -/
def metaStaging : Metadata :=
  { projectId := some "proj-1"
    owner := some "acme"
    repo := some "app"
    errorSource := some "staging" }

/-- **C2 counterexample.**  An incident whose `metadata.errorSource` is the
unrecognized non-empty value `"staging"` does *not* default to the approval
path: after a successful Patch the workflow returns without entering either
path, leaving the in-memory status `PATCH_IN_PROGRESS`, broadcasting no
`AWAITING_APPROVAL` update and writing nothing to the store. -/
theorem C2_counterexample :
    routeErrorSource (some "staging") = PathChoice.fallThrough ∧
    (runWorkflow envOK "inc-1" metaStaging).memStatus = "PATCH_IN_PROGRESS" ∧
    ((runWorkflow envOK "inc-1" metaStaging).trace.broadcasts.all
      fun b => b.status != "AWAITING_APPROVAL") = true ∧
    (runWorkflow envOK "inc-1" metaStaging).trace.writes = [] ∧
    ((runWorkflow envOK "inc-1" metaStaging).trace.calls.all
      fun c => c != ExecCall.slackApprovalRequest) = true := by
  decide

/-- **C2 (amended).**  After a successful Patch step the workflow branches on
`metadata.errorSource`: `"ci-cd"` enters the auto-fix path with no human
gate, `"production"` enters the approval path, and a *missing or empty* value
defaults to the approval path; any other non-empty value enters neither path
— the workflow stops right after the Patch step. -/
theorem C2_errorSource_routing (env : Env) (iid : String) (meta : Metadata)
    (pd : String) (hpatch : env.patchResult = some pd) :
    ((strFalsy meta.errorSource = true ∨ meta.errorSource = some "production") →
      (runWorkflow env iid meta).memStatus = "AWAITING_APPROVAL" ∧
      ∃ m, (runWorkflow env iid meta).trace.writes = [.setMeta iid m] ∧
        m.awaitingApproval = true) ∧
    (meta.errorSource = some "ci-cd" →
      ∀ c ∈ (runWorkflow env iid meta).trace.calls,
        c ≠ ExecCall.slackApprovalRequest) ∧
    ((strFalsy meta.errorSource = false ∧ meta.errorSource ≠ some "ci-cd" ∧
        meta.errorSource ≠ some "production") →
      (runWorkflow env iid meta).memStatus = "PATCH_IN_PROGRESS" ∧
      (runWorkflow env iid meta).trace.writes = [] ∧
      ∀ c ∈ (runWorkflow env iid meta).trace.calls,
        c = ExecCall.rca env.rcaResult ∨ c = ExecCall.patch none env.patchResult) := by
  have hroute1 : (strFalsy meta.errorSource = true ∨
      meta.errorSource = some "production") →
      routeErrorSource meta.errorSource = PathChoice.approval := by
    rintro (h | h)
    · rcases hm : meta.errorSource with _ | s
      · decide
      · rw [hm] at h
        have hs : s = "" := by simpa [strFalsy] using h
        subst hs
        decide
    · rw [h]
      decide
  refine ⟨?_, ?_, ?_⟩
  · intro h
    have hr := hroute1 h
    rcases hrca : env.rcaResult with _ | d <;>
      simp only [runWorkflow, hpatch, hrca, hr, requestApproval,
        Trace.app_writes, List.nil_append] <;>
      exact ⟨trivial, _, rfl, rfl⟩
  · intro h c hc
    have hr : routeErrorSource meta.errorSource = PathChoice.autoFix := by
      rw [h]
      decide
    obtain ⟨-, hcalls, -⟩ := selfHealAux_basic env 3 0 pd [] "PATCH_IN_PROGRESS"
    rcases hrca : env.rcaResult with _ | d <;>
      simp only [runWorkflow, hpatch, hrca, hr, runAutoFixWorkflow,
        MAX_RETRIES] at hc <;>
      by_cases hv : (selfHealAux env 3 0 pd [] "PATCH_IN_PROGRESS").verified <;>
      simp only [hv, if_true, if_false, Bool.false_eq_true, Trace.app_calls,
        List.mem_append, List.mem_cons, List.not_mem_nil, or_false] at hc
    all_goals rcases hc with (rfl | rfl) | hc
    all_goals try simp
    all_goals try exact (hcalls c hc).2.2
    all_goals
      rcases hc with hc | hc
    all_goals try exact (hcalls c hc).2.2
    all_goals exact cicd_tail_no_approval _ _ _ _ c hc
  · rintro ⟨h1, h2, h3⟩
    have hr : routeErrorSource meta.errorSource = PathChoice.fallThrough := by
      rcases hm : meta.errorSource with _ | s
      · rw [hm] at h1
        simp [strFalsy] at h1
      · rw [hm] at h1 h2 h3
        simp only [strFalsy, decide_eq_false_iff_not] at h1
        simp only [ne_eq, Option.some.injEq] at h2 h3
        simp [routeErrorSource, effectiveErrorSource, h1, h2, h3]
    rcases hrca : env.rcaResult with _ | d <;>
      simp only [runWorkflow, hpatch, hrca, hr] <;>
      refine ⟨by simp, by simp, ?_⟩ <;>
      intro c hc <;>
      simp only [List.mem_cons, List.not_mem_nil, or_false] at hc <;>
      rcases hc with rfl | rfl <;>
      simp [hrca, hpatch]

/-! ## Concrete fault messages and stores used by several claims -/

/-- Two identical fault messages differing only in their `HH:MM:SS`
timestamp, submitted 5 seconds apart. -/
def faultMsg1 : String := "ERROR: payment failed at 10:00:01"

def faultMsg2 : String := "ERROR: payment failed at 10:00:06"

/-- The store after the first submission of `faultMsg1` to an empty store. -/
def storeAfterFirst : List Incident :=
  (processFaultMessage [] "proj-1" faultMsg1 "id-1" 1 {}).1

/-- The incident record created by that first submission. -/
def firstIncident : Incident :=
  newIncidentRow "id-1" faultMsg1 (fingerprintOf faultMsg1 "proj-1") 1 {}

/-- **C3.**  A submitted fault message whose computed fingerprint matches an
existing non-RESOLVED incident bumps that incident's `occurrenceCount` and
`lastSeen`, is reported as a duplicate, creates no new incident and starts no
workflow; in particular two identical fault messages differing only in
timestamp, submitted for the same project, yield one incident record with
`occurrenceCount = 2`. -/
theorem C3_dedup_increments (store : List Incident)
    (projectId msg freshId : String) (now : Nat) (meta : Metadata)
    (inc : Incident)
    (h : dedupLookup store (fingerprintOf msg projectId) = some inc) :
    ((processFaultMessage store projectId msg freshId now meta).2.1.duplicate
        = true ∧
      (processFaultMessage store projectId msg freshId now meta).2.2 = false ∧
      (processFaultMessage store projectId msg freshId now meta).1.length
        = store.length ∧
      (processFaultMessage store projectId msg freshId now meta).1
        = bumpOccurrence store inc.id now) ∧
    ((processFaultMessage [] "proj-1" faultMsg1 "id-1" 1 {}).2.1.duplicate
        = false ∧
      (processFaultMessage storeAfterFirst "proj-1" faultMsg2 "id-2" 6
        {}).2.1.duplicate = true ∧
      (processFaultMessage storeAfterFirst "proj-1" faultMsg2 "id-2" 6
        {}).2.2 = false ∧
      ((processFaultMessage storeAfterFirst "proj-1" faultMsg2 "id-2" 6
        {}).1.map fun i => (i.occurrenceCount, i.lastSeen)) = [(2, 6)]) := by
  constructor
  · simp only [processFaultMessage, h]
    exact ⟨by simp, by simp, by simp [bumpOccurrence], by simp⟩
  · decide

set_option maxRecDepth 8000 in
/-- Witness for C3 at the concrete two-submission scenario. -/
theorem C3_dedup_increments_witness :
    dedupLookup storeAfterFirst (fingerprintOf faultMsg2 "proj-1")
      = some firstIncident ∧
    (processFaultMessage storeAfterFirst "proj-1" faultMsg2 "id-2" 6
      {}).2.1.duplicate = true :=
  ⟨by decide,
    (C3_dedup_increments storeAfterFirst "proj-1" faultMsg2 "id-2" 6 {}
      firstIncident (by decide)).1.1⟩

/-- **C8 counterexample.**  Two deduplication calls racing on the same
fingerprint: both `findFirst` reads happen against the store snapshot that
precedes either write (the read and the write are separate awaited database
operations with no transaction or unique constraint).  Both calls decide
"new" and both create an incident, leaving two open incidents with the same
fingerprint. -/
theorem C8_counterexample :
    (let fp := fingerprintOf faultMsg1 "proj-1"
     let d1 := dedupLookup [] fp
     let s1 := dedupApply [] d1 "proj-1" faultMsg1 "id-1" 1 {}
     let d2 := dedupLookup [] fp
     let s2 := dedupApply s1 d2 "proj-1" faultMsg1 "id-2" 1 {}
     openCountFor s2 fp) = 2 := by
  decide

/-- **C8 (amended).**  In the absence of interleaving, the log-ingestion
entry point preserves at-most-one-open-incident-per-fingerprint: a
submission whose fingerprint matches an open incident increments it instead
of creating a second one.  The check-then-insert is not transactional, so two
racing deduplication calls on the same fingerprint can both create incidents
(see the counterexample); and the webhook entry points create incidents
without any fingerprint lookup. -/
theorem C8_sequential_dedup_invariant (store : List Incident)
    (projectId msg freshId : String) (now : Nat) (meta : Metadata)
    (fp : String) (hinv : openCountFor store fp ≤ 1) :
    openCountFor (processFaultMessage store projectId msg freshId now meta).1
      fp ≤ 1 := by
  rcases h : dedupLookup store (fingerprintOf msg projectId) with _ | dup
  · simp only [processFaultMessage, h, openCountFor, List.countP_append]
    unfold openCountFor at hinv
    by_cases hfp : fp = fingerprintOf msg projectId
    · simp only [hfp] at hinv ⊢
      have hzero : List.countP
          (fun i => decide (i.fingerprint = some (fingerprintOf msg projectId)) &&
            decide (i.status ≠ "RESOLVED")) store = 0 :=
        List.countP_eq_zero.mpr
          (List.find?_eq_none.mp (by unfold dedupLookup at h; exact h))
      have hone := List.countP_le_length
        (fun i : Incident =>
          decide (i.fingerprint = some (fingerprintOf msg projectId)) &&
            decide (i.status ≠ "RESOLVED"))
        (l := [newIncidentRow freshId msg (fingerprintOf msg projectId) now meta])
      simp only [List.length_cons, List.length_nil] at hone
      omega
    · have hzero2 : List.countP
          (fun i => decide (i.fingerprint = some fp) &&
            decide (i.status ≠ "RESOLVED"))
          [newIncidentRow freshId msg (fingerprintOf msg projectId) now meta]
          = 0 := by
        have hne : ¬((fingerprintOf msg projectId : String) = fp) :=
          fun hh => hfp hh.symm
        simp [List.countP_cons, newIncidentRow, hne]
      omega
  · simp only [processFaultMessage, h, openCountFor, bumpOccurrence,
      List.countP_map]
    unfold openCountFor at hinv
    have hfun : ((fun i : Incident =>
        decide (i.fingerprint = some fp) && decide (i.status ≠ "RESOLVED")) ∘
        fun i : Incident => if i.id = dup.id then
          { i with occurrenceCount := i.occurrenceCount + 1, lastSeen := now }
        else i) = fun i : Incident =>
        decide (i.fingerprint = some fp) && decide (i.status ≠ "RESOLVED") := by
      funext i
      by_cases hid : i.id = dup.id <;> simp [hid]
    rw [hfun]
    exact hinv

/-- Witness for the amended C8 at a concrete submission. -/
theorem C8_sequential_dedup_invariant_witness :
    openCountFor storeAfterFirst (fingerprintOf faultMsg2 "proj-1") ≤ 1 ∧
    openCountFor (processFaultMessage storeAfterFirst "proj-1" faultMsg2
      "id-2" 6 {}).1 (fingerprintOf faultMsg2 "proj-1") ≤ 1 :=
  ⟨by decide,
    C8_sequential_dedup_invariant storeAfterFirst "proj-1" faultMsg2 "id-2" 6
      {} (fingerprintOf faultMsg2 "proj-1") (by decide)⟩

/-- Witness for the amended C2 at the `"staging"` input. -/
theorem C2_errorSource_routing_witness :
    envOK.patchResult = some "patch-0" ∧
    (runWorkflow envOK "inc-1" metaStaging).memStatus = "PATCH_IN_PROGRESS" :=
  ⟨by decide, ((C2_errorSource_routing envOK "inc-1" metaStaging "patch-0"
      (by decide)).2.2 ⟨by decide, by decide, by decide⟩).1⟩

/-! ## Approve / reject resume paths (C4, C5, C9) -/

/-- An incident already resolved through the approval flow: its metadata
still holds the persisted rca/patch context and the PR url. -/
def resolvedIncident : Incident :=
  { id := "inc-r"
    title := "Production Error: db down"
    status := "RESOLVED"
    fingerprint := some "fp-r"
    occurrenceCount := 1
    lastSeen := 5
    metadata :=
      { projectId := some "proj-1"
        owner := some "acme"
        repo := some "app"
        errorSource := some "production"
        rcaData := some "rca"
        patchData := some "patch"
        awaitingApproval := true
        prUrl := some "pr-url-0"
        resolvedAt := some 50 } }

/-- An incident that reached the terminal `FAILED` status. -/
def failedIncident : Incident :=
  { id := "inc-f"
    title := "Build Failed: ci"
    status := "FAILED"
    fingerprint := some "fp-f"
    occurrenceCount := 1
    lastSeen := 5
    metadata := { projectId := some "proj-1" } }

/-- An incident suspended at the approval gate. -/
def awaitingIncident : Incident :=
  { id := "inc-a"
    title := "Production Error: oom"
    status := "AWAITING_APPROVAL"
    fingerprint := some "fp-a"
    occurrenceCount := 1
    lastSeen := 5
    metadata :=
      { projectId := some "proj-1"
        owner := some "acme"
        repo := some "app"
        errorSource := some "production"
        rcaData := some "rca"
        patchData := some "patch"
        awaitingApproval := true } }

/-- **C4 (code bug).**  `approve` and `reject` on an incident that is no
longer in `AWAITING_APPROVAL` are *not* no-ops: neither handler checks the
current status.  Approving an already-RESOLVED incident re-invokes the Verify
and PR executors and rewrites the stored metadata (fresh `prUrl` and
`resolvedAt`); rejecting it rewrites the metadata with a rejection
annotation.  The spec requires a no-op. -/
theorem C4_approve_reject_not_idempotent :
    resolvedIncident.status = "RESOLVED" ∧
    (handleApproval envOK [resolvedIncident] "inc-r").2.trace.calls.countP
      isVerifyCall = 1 ∧
    (handleApproval envOK [resolvedIncident] "inc-r").2.trace.calls.countP
      isPRCall = 1 ∧
    (handleApproval envOK [resolvedIncident] "inc-r").1 ≠ [resolvedIncident] ∧
    (handleRejection [resolvedIncident] "inc-r").1 ≠ [resolvedIncident] := by
  decide

/-- **C5 (code bug).**  Terminal states are not sticky: `handleRejection`
never checks the current status, so rejecting an incident whose status is the
terminal `FAILED` flips its stored status to `RESOLVED`. -/
theorem C5_terminal_status_not_sticky :
    failedIncident.status = "FAILED" ∧
    ((handleRejection [failedIncident] "inc-f").1.map fun i => i.status)
      = ["RESOLVED"] := by
  decide

/-- **C9 (code bug).**  Nothing guards against duplicate `approve`
invocations for the same incident: a second `handleApproval` call (e.g. a
double-delivered Slack interaction) runs the post-approval verification and
PR creation again, so two invocations both run the post-approval workflow. -/
theorem C9_duplicate_approvals_both_run :
    ((handleApproval envOK [awaitingIncident] "inc-a").2.trace.calls.countP
        isVerifyCall = 1 ∧
      (handleApproval envOK [awaitingIncident] "inc-a").2.trace.calls.countP
        isPRCall = 1) ∧
    ((handleApproval envOK
        (handleApproval envOK [awaitingIncident] "inc-a").1
        "inc-a").2.trace.calls.countP isVerifyCall = 1 ∧
      (handleApproval envOK
        (handleApproval envOK [awaitingIncident] "inc-a").1
        "inc-a").2.trace.calls.countP isPRCall = 1) := by
  decide

/-! ## Approval gate without a chat collaborator (C6) -/

/-- **C6.**  On entering the approval path with no chat-notification
collaborator configured, the incident stays `AWAITING_APPROVAL` (visible to
the dashboard), no external ping of any kind is sent, and the workflow
neither proceeds past the gate nor aborts: no executor is invoked and the
accumulated context is still persisted with `awaitingApproval: true`. -/
theorem C6_no_chat_collaborator (env : Env) (iid : String) (meta : Metadata)
    (rcaData patchData : Option String) (h : env.slackConfigured = false) :
    (requestApproval env iid meta rcaData patchData).memStatus
      = "AWAITING_APPROVAL" ∧
    (requestApproval env iid meta rcaData patchData).trace.calls = [] ∧
    (requestApproval env iid meta rcaData patchData).trace.broadcasts
      = [⟨"AWAITING_APPROVAL", some "Waiting for Approval (Slack)..."⟩] ∧
    ∃ m, (requestApproval env iid meta rcaData patchData).trace.writes
        = [.setMeta iid m] ∧ m.awaitingApproval = true := by
  refine ⟨rfl, ?_, rfl, ?_⟩
  · simp [requestApproval, h]
  · exact ⟨_, rfl, rfl⟩

/-- Witness for C6 with the chat-less environment. -/
theorem C6_no_chat_collaborator_witness :
    envOK.slackConfigured = false ∧
    (requestApproval envOK "inc-1" {} (some "rca") (some "patch")).memStatus
      = "AWAITING_APPROVAL" ∧
    (requestApproval envOK "inc-1" {} (some "rca") (some "patch")).trace.calls
      = [] :=
  ⟨by decide,
    (C6_no_chat_collaborator envOK "inc-1" {} (some "rca") (some "patch")
      (by decide)).1,
    (C6_no_chat_collaborator envOK "inc-1" {} (some "rca") (some "patch")
      (by decide)).2.1⟩

/-! ## Missing owner/repo at the PR step (C10) -/

/-- **C10.**  When the PR-creation step is reached and `metadata.owner` or
`metadata.repo` is missing (JavaScript-falsy), `createPRAndNotify` returns
without invoking the PR executor and without setting any terminal status: the
in-memory status stays `PR_CREATION_IN_PROGRESS`, nothing is written to the
store, and no `FAILED`/`RESOLVED` update is broadcast. -/
theorem C10_missing_owner_repo (env : Env) (iid : String) (meta : Metadata)
    (pdOpt : Option String)
    (h : (strFalsy meta.owner || strFalsy meta.repo) = true) :
    ((createPRAndNotify env iid meta pdOpt "ci-cd").memStatus
        = "PR_CREATION_IN_PROGRESS" ∧
      (createPRAndNotify env iid meta pdOpt "ci-cd").trace.writes = [] ∧
      (createPRAndNotify env iid meta pdOpt "ci-cd").trace.calls.countP
        isPRCall = 0 ∧
      ∀ b ∈ (createPRAndNotify env iid meta pdOpt "ci-cd").trace.broadcasts,
        b.status ≠ "FAILED" ∧ b.status ≠ "RESOLVED") ∧
    (env.verifyProd.success = true →
      (createPRAndNotify env iid meta pdOpt "production").memStatus
        = "PR_CREATION_IN_PROGRESS" ∧
      (createPRAndNotify env iid meta pdOpt "production").trace.writes = [] ∧
      (createPRAndNotify env iid meta pdOpt "production").trace.calls.countP
        isPRCall = 0 ∧
      ∀ b ∈ (createPRAndNotify env iid meta pdOpt "production").trace.broadcasts,
        b.status ≠ "FAILED" ∧ b.status ≠ "RESOLVED") := by
  have hcp : ("ci-cd" = "production") = False := by decide
  have hpp : ("production" = "production") = True := by decide
  constructor
  · simp only [createPRAndNotify, prStep, h, hcp, if_true, if_false]
    refine ⟨by simp, by simp, by simp [isPRCall], ?_⟩
    intro b hb
    simp only [List.nil_append, List.mem_cons, List.not_mem_nil, or_false] at hb
    subst hb
    exact ⟨by simp, by simp⟩
  · intro hv
    simp only [createPRAndNotify, prStep, h, hv, hcp, hpp, if_true, if_false]
    refine ⟨by simp, by simp, by simp [isPRCall], ?_⟩
    intro b hb
    simp only [List.mem_append, List.mem_cons, List.not_mem_nil, or_false] at hb
    rcases hb with hb | hb <;> subst hb <;> exact ⟨by simp, by simp⟩

/-- Metadata with no repository linkage at all. -/
def metaNoRepo : Metadata :=
  { projectId := some "proj-1"
    errorSource := some "ci-cd" }

/-- Witness for C10 with missing owner/repo. -/
theorem C10_missing_owner_repo_witness :
    (strFalsy metaNoRepo.owner || strFalsy metaNoRepo.repo) = true ∧
    (createPRAndNotify envOK "inc-3" metaNoRepo (some "patch")
      "ci-cd").memStatus = "PR_CREATION_IN_PROGRESS" :=
  ⟨by decide,
    (C10_missing_owner_repo envOK "inc-3" metaNoRepo (some "patch")
      (by decide)).1.1⟩

/-! ## Terminal step failures (C7) -/

/-- Environment whose sandbox verifier always fails. -/
def envVerifyFail : Env :=
  { rcaResult := some "rca"
    patchResult := some "patch-0"
    retryPatchResult := fun _ => some "patch-retry"
    verifyAuto := fun _ => ⟨false, some ["test failed"], none⟩
    verifyProd := ⟨false, some ["test failed"], none⟩
    prResult := some "pr-url-1"
    slackConfigured := false
    now := 100 }

/-- Metadata of a CI/CD-classified incident with full repository linkage. -/
def metaCicd : Metadata :=
  { projectId := some "proj-1"
    owner := some "acme"
    repo := some "app"
    errorSource := some "ci-cd" }

/-- Environment whose Patch executor fails. -/
def envPatchFail : Env :=
  { envOK with patchResult := none }

/-- Environment whose PR creation fails. -/
def envPRFail : Env :=
  { envOK with prResult := none }

/-- **C7 counterexample.**  A CI/CD incident whose verification fails on all
three self-healing attempts: the workflow broadcasts a `FAILED` update and
stops, but performs *no* store write at all — the terminal status is never
persisted to the Incident Store, contradicting the claim that every terminal
step failure persists `FAILED` with a status message. -/
theorem C7_counterexample :
    ((runWorkflow envVerifyFail "inc-2" metaCicd).trace.broadcasts.any
      fun b => b.status == "FAILED") = true ∧
    (runWorkflow envVerifyFail "inc-2" metaCicd).trace.writes = [] := by
  decide

/-- **C7 (amended).**  Every terminal step failure broadcasts a `FAILED`
update with a status message and stops the workflow (no subsequent step
executor is invoked); the Patch failure additionally persists status
`FAILED` to the Incident Store (without a stored status message), while
Verify failure after retry exhaustion and PR-creation failure do *not*
persist the `FAILED` status. -/
theorem C7_terminal_failures (env : Env) (iid : String) (meta : Metadata)
    (pd : String) (ms : String) :
    (env.patchResult = none →
      (runWorkflow env iid meta).trace.writes = [.setStatus iid "FAILED"] ∧
      Broadcast.mk "FAILED" (some "Patch Generation Failed") ∈
        (runWorkflow env iid meta).trace.broadcasts ∧
      (runWorkflow env iid meta).trace.calls.countP isVerifyCall = 0 ∧
      (runWorkflow env iid meta).trace.calls.countP isPRCall = 0) ∧
    ((selfHealAux env MAX_RETRIES 0 pd [] ms).verified = false →
      Broadcast.mk "FAILED" (some "Verification Failed (Max Retries Exceeded)") ∈
        (runAutoFixWorkflow env iid meta pd ms).trace.broadcasts ∧
      (runAutoFixWorkflow env iid meta pd ms).trace.writes = [] ∧
      (runAutoFixWorkflow env iid meta pd ms).trace.calls.countP isPRCall = 0) ∧
    ((env.prResult = none ∧ strFalsy meta.owner = false ∧
        strFalsy meta.repo = false) →
      Broadcast.mk "FAILED" (some "PR Creation Failed") ∈
        (createPRAndNotify env iid meta (some pd) "ci-cd").trace.broadcasts ∧
      (createPRAndNotify env iid meta (some pd) "ci-cd").trace.writes = [] ∧
      ∀ c ∈ (createPRAndNotify env iid meta (some pd) "ci-cd").trace.calls,
        c ≠ ExecCall.slackNotify) := by
  refine ⟨?_, ?_, ?_⟩
  · intro h
    rcases hrca : env.rcaResult with _ | d <;>
      simp only [runWorkflow, h, hrca] <;>
      exact ⟨by simp, by simp, by simp [isVerifyCall], by simp [isPRCall]⟩
  · intro hv
    obtain ⟨hw, hcalls, -⟩ := selfHealAux_basic env MAX_RETRIES 0 pd [] ms
    simp only [runAutoFixWorkflow, hv, Bool.false_eq_true, if_false]
    refine ⟨by simp, hw, ?_⟩
    rw [List.countP_eq_zero]
    intro c hc
    simpa using (hcalls c hc).1
  · rintro ⟨hpr, ho, hr⟩
    have hcp : ("ci-cd" = "production") = False := by decide
    have hor : (strFalsy meta.owner || strFalsy meta.repo) = false := by
      simp [ho, hr]
    simp only [createPRAndNotify, prStep, hcp, if_false, hor, hpr,
      Bool.false_eq_true]
    exact ⟨by simp, by simp, by simp⟩

/-- Witness for the amended C7 at the three concrete failure environments. -/
theorem C7_terminal_failures_witness :
    (envPatchFail.patchResult = none ∧
      (runWorkflow envPatchFail "inc-4" metaCicd).trace.writes
        = [.setStatus "inc-4" "FAILED"]) ∧
    ((selfHealAux envVerifyFail MAX_RETRIES 0 "patch-0" []
        "PATCH_IN_PROGRESS").verified = false ∧
      (runAutoFixWorkflow envVerifyFail "inc-2" metaCicd "patch-0"
        "PATCH_IN_PROGRESS").trace.writes = []) ∧
    ((envPRFail.prResult = none ∧ strFalsy metaCicd.owner = false ∧
        strFalsy metaCicd.repo = false) ∧
      Broadcast.mk "FAILED" (some "PR Creation Failed") ∈
        (createPRAndNotify envPRFail "inc-5" metaCicd (some "patch")
          "ci-cd").trace.broadcasts) :=
  ⟨⟨by decide,
      ((C7_terminal_failures envPatchFail "inc-4" metaCicd "x" "y").1
        (by decide)).1⟩,
    ⟨by decide,
      ((C7_terminal_failures envVerifyFail "inc-2" metaCicd "patch-0"
        "PATCH_IN_PROGRESS").2.1 (by decide)).2.1⟩,
    ⟨⟨by decide, by decide, by decide⟩,
      ((C7_terminal_failures envPRFail "inc-5" metaCicd "patch" "z").2.2
        ⟨by decide, by decide, by decide⟩).1⟩⟩

end DevOpsGuardian
